import Mathlib

/-!
Shallow embedding of src/sgs_zhulu_105.py, a screen-automation script that
locates UI elements in screenshots by multi-scale template matching and
issues synthetic mouse clicks.

Modelling conventions:
* Confidences, thresholds, scales, click offsets and delays are rationals.
  OpenCV's TM_CCOEFF_NORMED correlation lies in the closed interval [-1, 1];
  where a claim needs this range it appears as an explicit hypothesis.
* The per-scale OpenCV pipeline (cv2.resize + cv2.matchTemplate +
  cv2.minMaxLoc, source lines 36-44) is abstracted as an oracle
  m : scale -> (max_val, max_loc); the surrounding Python control flow
  (the scale loop, the threshold tests, the retry loop, the scenario loop)
  is translated literally.
* Side effects (pyautogui.moveTo, pyautogui.click, time.sleep,
  pyautogui.screenshot().save) are recorded as an event trace.  Successive
  screenshots are numbered 0, 1, 2, ...; the number of the capture currently
  stored at image_path is threaded through as `stored`.
* In the battle-polling loop (source lines 229-249) wall-clock time is the
  rational `t`, starting at 0 when the deadline is created; each
  time.sleep(10) of the loop advances it by 10.
-/

/-- Bounding box of a match as built on source lines 48-53: x and y of the
top-left corner (from max_loc), then width and height of the scaled
template (shape[1], shape[0]). -/
structure Region where
  x : ℤ
  y : ℤ
  w : ℤ
  h : ℤ
deriving DecidableEq

/-- Rounding used by OpenCV when it computes the destination size of
cv2.resize(template, None, fx=scale, fy=scale): saturate_cast of a double
rounds half to even (cvRound). -/
def cvRound (q : ℚ) : ℤ :=
  if q - ⌊q⌋ < 1/2 then ⌊q⌋
  else if 1/2 < q - ⌊q⌋ then ⌊q⌋ + 1
  else if ⌊q⌋ % 2 = 0 then ⌊q⌋ else ⌊q⌋ + 1

/-- Width and height of the template of size (tw, th) after
cv2.resize(template, None, fx=scale, fy=scale) on source line 36. -/
def resizeDims (tw th : ℤ) (scale : ℚ) : ℤ × ℤ :=
  (cvRound (tw * scale), cvRound (th * scale))

/-- The scale loop of multi_scale_template_matching, source lines 34-53:
state (best_confidence, best_match), updated when the current scale's
max_val is strictly greater than best_confidence. -/
def mstmGo (m : ℚ → ℚ × ℤ × ℤ) (tw th : ℤ) :
    List ℚ → ℚ → Option Region → ℚ × Option Region
  | [], bc, bm => (bc, bm)
  | s :: rest, bc, bm =>
    let mv := (m s).1
    let loc := (m s).2
    let d := resizeDims tw th s
    if bc < mv then
      mstmGo m tw th rest mv (some ⟨loc.1, loc.2, d.1, d.2⟩)
    else
      mstmGo m tw th rest bc bm

/-- multi_scale_template_matching, source lines 9-55: run the scale loop
from the sentinel state best_confidence = -1, best_match = None.  The
grayscale loading of image and template (lines 21-29) is absorbed into the
oracle m, which gives each scale's correlation maximum and its location. -/
def multi_scale_template_matching (m : ℚ → ℚ × ℤ × ℤ) (tw th : ℤ)
    (scales : List ℚ) : ℚ × Option Region :=
  mstmGo m tw th scales (-1) none

/-- Python's int() conversion applied on source lines 82-83: truncation
toward zero. -/
def pyInt (q : ℚ) : ℤ :=
  if 0 ≤ q then ⌊q⌋ else -⌊-q⌋

/-- Observable side effects of the script: saving capture number k to
image_path, pyautogui.moveTo, pyautogui.click, and time.sleep of a given
number of seconds. -/
inductive Event where
  | save : ℕ → Event
  | moveTo : ℤ → ℤ → Event
  | click : Event
  | sleep : ℚ → Event
deriving DecidableEq

/-- locate_and_click, source lines 58-98: run the matcher; if a region was
found and its confidence reaches the threshold, move to the offset point
inside the region and click (events), reporting True; otherwise report
False with no pointer event.  No exception is raised on failure: the
function is total and failure is the plain value (false, []). -/
def locate_and_click (m : ℚ → ℚ × ℤ × ℤ) (tw th : ℤ) (scales : List ℚ)
    (offset : ℚ × ℚ) (threshold : ℚ) : Bool × List Event :=
  let r := multi_scale_template_matching m tw th scales
  match r.2 with
  | some reg =>
    if threshold ≤ r.1 then
      let cx : ℤ := reg.x + pyInt (reg.w * offset.1)
      let cy : ℤ := reg.y + pyInt (reg.h * offset.2)
      (true, [Event.moveTo cx cy, Event.click])
    else
      (false, [])
  | none => (false, [])

/-- The five template files read by the scenario, source lines 188, 202,
219, 240 and 267. -/
inductive Tmpl where
  | stage105
  | teamselect
  | buystamina
  | success
  | ret
deriving DecidableEq

/-- The external world: for capture number k, template t and scale s,
oracle k t s is the (max_val, max_loc) the OpenCV pipeline reports for the
screenshot k stored at image_path; tdims t is template t's size. -/
structure Env where
  oracle : ℕ → Tmpl → ℚ → ℚ × ℤ × ℤ
  tdims : Tmpl → ℤ × ℤ

/-- multi_scale_template_matching applied to stored capture k and
template t. -/
def envMatch (env : Env) (k : ℕ) (t : Tmpl) (scales : List ℚ) :
    ℚ × Option Region :=
  multi_scale_template_matching (env.oracle k t) (env.tdims t).1
    (env.tdims t).2 scales

/-- locate_and_click applied to stored capture k and template t. -/
def envLocateClick (env : Env) (k : ℕ) (t : Tmpl) (scales : List ℚ)
    (offset : ℚ × ℚ) (threshold : ℚ) : Bool × List Event :=
  locate_and_click (env.oracle k t) (env.tdims t).1 (env.tdims t).2
    scales offset threshold

/-- Result of run_click_task: its boolean return value, how many times
retry_num was incremented, the number the next screenshot will get, the
capture currently stored at image_path, and the event trace. -/
structure TaskResult where
  ok : Bool
  attempts : ℕ
  nextCap : ℕ
  stored : ℕ
  trace : List Event
deriving DecidableEq

/-- The while loop of run_click_task, source lines 132-161.  fuel is
retry_times - retry_num, cap the next capture number, stored the capture
at image_path.  Each iteration: locate_and_click, unconditional
time.sleep(delay); on click failure increment retry_num and retry on the
SAME stored capture; on click success take a fresh screenshot (save cap)
and re-match: if no region or confidence below threshold return True,
else increment retry_num and continue on the fresh capture. -/
def runClickLoop (env : Env) (t : Tmpl) (scales : List ℚ) (offset : ℚ × ℚ)
    (threshold δ : ℚ) : ℕ → ℕ → ℕ → TaskResult
  | 0, cap, stored => ⟨false, 0, cap, stored, []⟩
  | fuel+1, cap, stored =>
    let lac := envLocateClick env stored t scales offset threshold
    if lac.1 then
      let chk := envMatch env cap t scales
      if chk.2 = none ∨ chk.1 < threshold then
        ⟨true, 0, cap + 1, cap, lac.2 ++ [Event.sleep δ, Event.save cap]⟩
      else
        let rest := runClickLoop env t scales offset threshold δ fuel (cap + 1) cap
        ⟨rest.ok, rest.attempts + 1, rest.nextCap, rest.stored,
          lac.2 ++ [Event.sleep δ, Event.save cap] ++ rest.trace⟩
    else
      let rest := runClickLoop env t scales offset threshold δ fuel cap stored
      ⟨rest.ok, rest.attempts + 1, rest.nextCap, rest.stored,
        lac.2 ++ [Event.sleep δ] ++ rest.trace⟩

/-- run_click_task, source lines 101-161: take an initial screenshot
(save cap0), then run the retry loop with fuel retry_times. -/
def run_click_task (env : Env) (t : Tmpl) (scales : List ℚ) (offset : ℚ × ℚ)
    (threshold : ℚ) (retry : ℕ) (δ : ℚ) (cap0 : ℕ) : TaskResult :=
  let r := runClickLoop env t scales offset threshold δ retry (cap0 + 1) cap0
  ⟨r.ok, r.attempts, r.nextCap, r.stored, Event.save cap0 :: r.trace⟩

/-- Terminal conditions of the scenario loop of run_zhulu_105_task, one per
break on source lines 194-276, plus nextLoop for reaching line 277 and
starting the next iteration. -/
inductive Outcome where
  | enterFailed
  | startFailed
  | noStamina
  | battleTimeout
  | dismissFailed
  | returnFailed
  | nextLoop
deriving DecidableEq

/-- Result of the battle-status polling loop, source lines 228-246: the
success flag, next capture number, stored capture, and events. -/
structure PollResult where
  ok : Bool
  nextCap : ℕ
  stored : ℕ
  trace : List Event
deriving DecidableEq

/-- The battle-status polling loop, source lines 228-246.  t is the
wall-clock time in seconds since the deadline maxB was created; while
t < maxB: sleep 10 seconds, take a screenshot, match the success template
on it, and stop with success when its confidence reaches the threshold. -/
def battlePoll (env : Env) (threshold : ℚ) (scales : List ℚ) (maxB : ℚ)
    (t : ℚ) (cap stored : ℕ) : PollResult :=
  if h : t < maxB then
    let chk := envMatch env cap Tmpl.success scales
    if threshold ≤ chk.1 then
      ⟨true, cap + 1, cap, [Event.sleep 10, Event.save cap]⟩
    else
      let rest := battlePoll env threshold scales maxB (t + 10) (cap + 1) cap
      ⟨rest.ok, rest.nextCap, rest.stored,
        Event.sleep 10 :: Event.save cap :: rest.trace⟩
  else ⟨false, cap, stored, []⟩
termination_by (Int.ceil (maxB - t)).toNat
decreasing_by
  have h1 : (0:ℤ) < Int.ceil (maxB - t) := Int.ceil_pos.mpr (by linarith)
  have h2 : maxB - (t + 10) = (maxB - t) - ((10:ℤ):ℚ) := by push_cast; ring
  have h3 : Int.ceil (maxB - (t + 10)) = Int.ceil (maxB - t) - 10 := by
    rw [h2, Int.ceil_sub_int]
  omega

/-- The events of a run of the polling loop that never sees the success
template: each of the N iterations sleeps 10 seconds and then takes a
fresh screenshot, captures counting up from cap. -/
def pollTrace (cap : ℕ) : ℕ → List Event
  | 0 => []
  | n+1 => Event.sleep 10 :: Event.save cap :: pollTrace (cap + 1) n

/-- Step 1 of the scenario, source lines 186-193: click the stage-selection
template with offset (0.75, 0.5) and the default delay 2. -/
def step1 (env : Env) (threshold : ℚ) (scales : List ℚ) (retry : ℕ)
    (cap : ℕ) : TaskResult :=
  run_click_task env Tmpl.stage105 scales (3/4, 1/2) threshold retry 2 cap

/-- Step 2 of the scenario, source lines 200-208: click the team-selection
template with offset (0.9, 0.92) and delay 3. -/
def step2 (env : Env) (threshold : ℚ) (scales : List ℚ) (retry : ℕ)
    (cap : ℕ) : TaskResult :=
  run_click_task env Tmpl.teamselect scales (9/10, 23/25) threshold retry 3 cap

/-- Result of one iteration of the scenario loop body. -/
structure BodyResult where
  outcome : Outcome
  nextCap : ℕ
  stored : ℕ
  trace : List Event
deriving DecidableEq

/-- One iteration of the while-True loop of run_zhulu_105_task, source
lines 183-277: stage selection, team selection, park the pointer at (4,4),
stamina check on the capture stored by step 2 (no fresh screenshot), then
the battle poll from time 0, then the dismiss click (success template,
offset (0.5, 0.5), default delay 2) and the return click (return template,
offset (0.5, 0.5), delay 3). -/
def zhuluBody (env : Env) (threshold : ℚ) (scales : List ℚ) (retry : ℕ)
    (maxB : ℚ) (cap : ℕ) : BodyResult :=
  let r1 := step1 env threshold scales retry cap
  if r1.ok then
    let r2 := step2 env threshold scales retry r1.nextCap
    if r2.ok then
      let pre := r1.trace ++ r2.trace ++ [Event.moveTo 4 4]
      let chk := envMatch env r2.stored Tmpl.buystamina scales
      if threshold ≤ chk.1 then
        ⟨Outcome.noStamina, r2.nextCap, r2.stored, pre⟩
      else
        let bp := battlePoll env threshold scales maxB 0 r2.nextCap r2.stored
        if bp.ok then
          let r3 := run_click_task env Tmpl.success scales (1/2, 1/2)
            threshold retry 2 bp.nextCap
          if r3.ok then
            let r4 := run_click_task env Tmpl.ret scales (1/2, 1/2)
              threshold retry 3 r3.nextCap
            if r4.ok then
              ⟨Outcome.nextLoop, r4.nextCap, r4.stored,
                pre ++ bp.trace ++ r3.trace ++ r4.trace⟩
            else
              ⟨Outcome.returnFailed, r4.nextCap, r4.stored,
                pre ++ bp.trace ++ r3.trace ++ r4.trace⟩
          else
            ⟨Outcome.dismissFailed, r3.nextCap, r3.stored,
              pre ++ bp.trace ++ r3.trace⟩
        else
          ⟨Outcome.battleTimeout, bp.nextCap, bp.stored, pre ++ bp.trace⟩
    else
      ⟨Outcome.startFailed, r2.nextCap, r2.stored, r1.trace ++ r2.trace⟩
  else
    ⟨Outcome.enterFailed, r1.nextCap, r1.stored, r1.trace⟩

/-- run_zhulu_105_task, source lines 164-277: iterate the loop body until
it ends with a terminal outcome.  fuel bounds the number of iterations of
the while-True loop that we observe; the pair nextLoop-with-empty-trace at
fuel 0 stands for a run still in progress. -/
def run_zhulu_105_task (env : Env) (threshold : ℚ) (scales : List ℚ)
    (retry : ℕ) (maxB : ℚ) : ℕ → ℕ → Outcome × List Event
  | 0, _ => (Outcome.nextLoop, [])
  | fuel+1, cap =>
    let b := zhuluBody env threshold scales retry maxB cap
    if b.outcome = Outcome.nextLoop then
      let rest := run_zhulu_105_task env threshold scales retry maxB fuel b.nextCap
      (rest.1, b.trace ++ rest.2)
    else
      (b.outcome, b.trace)

/-- Oracle reporting the correlation minimum -1 at every scale: the
degenerate but mathematically attainable outcome of TM_CCOEFF_NORMED in
which every window of the screen is perfectly anti-correlated with the
template (e.g. a 2x1 image [0, 255] against the 2x1 template [255, 0]). -/
def mNeg : ℚ → ℚ × ℤ × ℤ := fun _ => (-1, (0, 0))

/-- Oracle with constant confidence 1/2 at location (0, 0). -/
def mHalf : ℚ → ℚ × ℤ × ℤ := fun _ => (1/2, (0, 0))

/-- Oracle used for the C6 witness: scale 1 scores 7/10, scale 2 scores
9/10 at location (30, 40). -/
def mScales : ℚ → ℚ × ℤ × ℤ := fun s =>
  if s = 1 then (7/10, (10, 20)) else (9/10, (30, 40))

/-- Oracle used for the C7 witness: confidence 19/20 at (100, 200). -/
def mStage : ℚ → ℚ × ℤ × ℤ := fun _ => (19/20, (100, 200))

/-- Modelled from the spec: plain single-scale correlation matching,
performed directly on the unresized template: the correlation surface's
maximum and its location, the region sized by the original template.  The
scale-1.0 correlation surface is the plain surface because cv2.resize by
factor 1.0 with INTER_AREA interpolation is the identity. -/
def plain_template_matching (m : ℚ → ℚ × ℤ × ℤ) (tw th : ℤ) :
    ℚ × Option Region :=
  ((m 1).1, some ⟨(m 1).2.1, (m 1).2.2, tw, th⟩)

/-- Environment in which every template matches with confidence 1/10 at
(0, 0), below any threshold of interest. -/
def envPoor : Env := ⟨fun _ _ _ => (1/10, (0, 0)), fun _ => (50, 30)⟩

/-- Environment in which the first capture matches every template with
confidence 19/20 at (100, 200) and later captures only with 1/10. -/
def envStage : Env :=
  ⟨fun k _ _ => if k = 0 then (19/20, (100, 200)) else (1/10, (0, 0)),
    fun _ => (50, 30)⟩

/-- Environment for the C3 witness: the stage template matches capture 0,
the team template matches capture 2, the stamina template matches every
capture; everything else stays at 1/10. -/
def envStamina : Env :=
  ⟨fun k t _ =>
    match t with
    | Tmpl.stage105 => if k = 0 then (19/20, (100, 200)) else (1/10, (0, 0))
    | Tmpl.teamselect => if k = 2 then (9/10, (300, 400)) else (1/10, (0, 0))
    | Tmpl.buystamina => (9/10, (0, 0))
    | _ => (1/10, (0, 0)),
    fun _ => (50, 30)⟩

/-- Environment for the C4 witness: like the C3 environment but with the
stamina and success templates never matching. -/
def envBattle : Env :=
  ⟨fun k t _ =>
    match t with
    | Tmpl.stage105 => if k = 0 then (19/20, (100, 200)) else (1/10, (0, 0))
    | Tmpl.teamselect => if k = 2 then (9/10, (300, 400)) else (1/10, (0, 0))
    | _ => (1/10, (0, 0)),
    fun _ => (50, 30)⟩

/-- Invariant of the scale loop: either no scale strictly beats the
incoming best confidence and the incoming state is returned unchanged, or
some scale wins: its correlation is strictly above the incoming best, no
scale exceeds it, and the returned pair is its correlation together with
its location and scaled size. -/
theorem mstmGo_spec (m : ℚ → ℚ × ℤ × ℤ) (tw th : ℤ) (l : List ℚ) (bc : ℚ)
    (bm : Option Region) :
    ((∀ s ∈ l, (m s).1 ≤ bc) ∧ mstmGo m tw th l bc bm = (bc, bm)) ∨
    (∃ s ∈ l, bc < (m s).1 ∧ (∀ s2 ∈ l, (m s2).1 ≤ (m s).1) ∧
      mstmGo m tw th l bc bm =
        ((m s).1, some ⟨(m s).2.1, (m s).2.2,
          (resizeDims tw th s).1, (resizeDims tw th s).2⟩)) := by
  induction l generalizing bc bm with
  | nil => exact Or.inl ⟨by simp, rfl⟩
  | cons a rest ih =>
    by_cases hba : bc < (m a).1
    · rcases ih (m a).1 (some ⟨(m a).2.1, (m a).2.2,
          (resizeDims tw th a).1, (resizeDims tw th a).2⟩) with
        ⟨hall, heq⟩ | ⟨s, hs, hlt, hmax, heq⟩
      · refine Or.inr ⟨a, List.mem_cons_self a rest, hba, ?_, ?_⟩
        · intro s2 hs2
          rcases List.mem_cons.mp hs2 with h | h
          · exact h ▸ le_refl _
          · exact hall s2 h
        · simpa [mstmGo, hba] using heq
      · refine Or.inr ⟨s, List.mem_cons_of_mem a hs, lt_trans hba hlt, ?_, ?_⟩
        · intro s2 hs2
          rcases List.mem_cons.mp hs2 with h | h
          · exact h ▸ le_of_lt hlt
          · exact hmax s2 h
        · simpa [mstmGo, hba] using heq
    · rcases ih bc bm with ⟨hall, heq⟩ | ⟨s, hs, hlt, hmax, heq⟩
      · refine Or.inl ⟨?_, by simpa [mstmGo, hba] using heq⟩
        intro s2 hs2
        rcases List.mem_cons.mp hs2 with h | h
        · exact h ▸ not_lt.mp hba
        · exact hall s2 h
      · refine Or.inr ⟨s, List.mem_cons_of_mem a hs, hlt, ?_,
          by simpa [mstmGo, hba] using heq⟩
        intro s2 hs2
        rcases List.mem_cons.mp hs2 with h | h
        · exact h ▸ le_trans (not_lt.mp hba) (le_of_lt hlt)
        · exact hmax s2 h

/-- If locate_and_click reports a click, the matcher found a region whose
confidence reaches the threshold, and the pointer events are a move to the
region's top-left corner plus the truncated fractional offsets, followed by
a click. -/
theorem locate_and_click_true_spec (m : ℚ → ℚ × ℤ × ℤ) (tw th : ℤ)
    (scales : List ℚ) (offset : ℚ × ℚ) (threshold : ℚ)
    (h : (locate_and_click m tw th scales offset threshold).1 = true) :
    ∃ reg, (multi_scale_template_matching m tw th scales).2 = some reg ∧
      threshold ≤ (multi_scale_template_matching m tw th scales).1 ∧
      (locate_and_click m tw th scales offset threshold).2 =
        [Event.moveTo (reg.x + pyInt (reg.w * offset.1))
          (reg.y + pyInt (reg.h * offset.2)), Event.click] := by
  unfold locate_and_click at h ⊢
  rcases hr : (multi_scale_template_matching m tw th scales).2 with _ | reg
  · simp [hr] at h
  · by_cases hc : threshold ≤ (multi_scale_template_matching m tw th scales).1
    · exact ⟨reg, rfl, hc, by simp [hr, hc]⟩
    · simp [hr, hc] at h

/-- If locate_and_click reports failure, it issued no pointer event. -/
theorem locate_and_click_false_events (m : ℚ → ℚ × ℤ × ℤ) (tw th : ℤ)
    (scales : List ℚ) (offset : ℚ × ℚ) (threshold : ℚ)
    (h : (locate_and_click m tw th scales offset threshold).1 = false) :
    (locate_and_click m tw th scales offset threshold).2 = [] := by
  unfold locate_and_click at h ⊢
  rcases hr : (multi_scale_template_matching m tw th scales).2 with _ | reg
  · simp [hr]
  · by_cases hc : threshold ≤ (multi_scale_template_matching m tw th scales).1
    · simp [hr, hc] at h
    · simp [hr, hc]

/-- Claim C5, counterexample: for the non-empty scale list [1.0] and the
matching outcome whose per-scale correlation maximum is exactly -1, the
loop's strict comparison max_val > best_confidence never fires, so the
initial sentinel -1 with no region is returned, contradicting the claim
that the sentinel is never returned for a non-empty scale list. -/
theorem C5_counterexample :
    ([(1:ℚ)] ≠ []) ∧
      multi_scale_template_matching mNeg 10 10 [1] = (-1, none) := by
  refine ⟨by simp, ?_⟩
  norm_num [multi_scale_template_matching, mstmGo, mNeg]

/-- Claim C5 (amended): for every scale list containing some scale whose
correlation maximum strictly exceeds -1, multi_scale_template_matching
does not return the initial sentinel: the returned confidence is strictly
above -1 and a region is recorded. -/
theorem C5_no_sentinel (m : ℚ → ℚ × ℤ × ℤ) (tw th : ℤ) (scales : List ℚ)
    (s : ℚ) (hs : s ∈ scales) (h : -1 < (m s).1) :
    -1 < (multi_scale_template_matching m tw th scales).1 ∧
      (multi_scale_template_matching m tw th scales).2 ≠ none := by
  rcases mstmGo_spec m tw th scales (-1) none with ⟨hall, _⟩ |
    ⟨s2, _, hlt, _, heq⟩
  · exact absurd (hall s hs) (not_le.mpr h)
  · unfold multi_scale_template_matching
    rw [heq]
    exact ⟨hlt, by simp⟩

/-- Witness for the amended claim C5 at a concrete input. -/
theorem C5_witness :
    ((1:ℚ) ∈ [(1:ℚ)] ∧ -1 < (mHalf 1).1) ∧
      (-1 < (multi_scale_template_matching mHalf 10 10 [1]).1 ∧
        (multi_scale_template_matching mHalf 10 10 [1]).2 ≠ none) :=
  ⟨⟨by simp, by norm_num [mHalf]⟩,
    C5_no_sentinel mHalf 10 10 [1] 1 (by simp) (by norm_num [mHalf])⟩

/-- Claim C6, counterexample: with non-empty scales [1.0] and the
all-scales-at--1 outcome, no region at all is returned, contradicting the
claim that the returned region is the winning scale's location and scaled
size. -/
theorem C6_counterexample :
    ([(1:ℚ)] ≠ []) ∧
      (multi_scale_template_matching mNeg 5 7 [1]).2 = none := by
  refine ⟨by simp, ?_⟩
  norm_num [multi_scale_template_matching, mstmGo, mNeg]

/-- Claim C6 (amended): whenever some scale's correlation maximum exceeds
the sentinel -1 (in particular whenever the scale list is non-empty and
correlations exceed the metric minimum), the returned match is the one
with the highest correlation across all scales, and its region is that
scale's best location together with the template size scaled by the
winning factor as computed by the resize rounding. -/
theorem C6_highest_correlation (m : ℚ → ℚ × ℤ × ℤ) (tw th : ℤ)
    (scales : List ℚ) (hx : ∃ s ∈ scales, -1 < (m s).1) :
    ∃ s ∈ scales, (∀ s2 ∈ scales, (m s2).1 ≤ (m s).1) ∧
      multi_scale_template_matching m tw th scales =
        ((m s).1, some ⟨(m s).2.1, (m s).2.2,
          (resizeDims tw th s).1, (resizeDims tw th s).2⟩) := by
  rcases mstmGo_spec m tw th scales (-1) none with ⟨hall, _⟩ |
    ⟨s, hs, _, hmax, heq⟩
  · obtain ⟨s, hs, h⟩ := hx
    exact absurd (hall s hs) (not_le.mpr h)
  · exact ⟨s, hs, hmax, heq⟩

/-- Witness for the amended claim C6 at a concrete two-scale input. -/
theorem C6_witness :
    (∃ s ∈ [(1:ℚ), 2], -1 < (mScales s).1) ∧
      ∃ s ∈ [(1:ℚ), 2], (∀ s2 ∈ [(1:ℚ), 2], (mScales s2).1 ≤ (mScales s).1) ∧
        multi_scale_template_matching mScales 50 30 [1, 2] =
          ((mScales s).1, some ⟨(mScales s).2.1, (mScales s).2.2,
            (resizeDims 50 30 s).1, (resizeDims 50 30 s).2⟩) :=
  ⟨⟨1, by simp, by norm_num [mScales]⟩,
    C6_highest_correlation mScales 50 30 [1, 2]
      ⟨1, by simp, by norm_num [mScales]⟩⟩

/-- Claim C2: for every threshold in [0, 1] and every matching outcome
whose best confidence is strictly below it, locate_and_click issues no
pointer movement and no click and returns False; being a total function
it raises nothing, failure is the plain return value. -/
theorem C2_no_click_below_threshold (m : ℚ → ℚ × ℤ × ℤ) (tw th : ℤ)
    (scales : List ℚ) (offset : ℚ × ℚ) (threshold : ℚ)
    (h0 : 0 ≤ threshold) (h1 : threshold ≤ 1)
    (h : (multi_scale_template_matching m tw th scales).1 < threshold) :
    locate_and_click m tw th scales offset threshold = (false, []) := by
  unfold locate_and_click
  rcases hr : (multi_scale_template_matching m tw th scales).2 with _ | reg
  · simp [hr]
  · simp [hr, not_le.mpr h]

/-- Witness for claim C2 at a concrete input. -/
theorem C2_witness :
    ((0:ℚ) ≤ 4/5 ∧ (4:ℚ)/5 ≤ 1 ∧
      (multi_scale_template_matching mHalf 10 10 [1]).1 < 4/5) ∧
      locate_and_click mHalf 10 10 [1] (0, 0) (4/5) = (false, []) :=
  ⟨⟨by norm_num, by norm_num,
      by norm_num [multi_scale_template_matching, mstmGo, mHalf]⟩,
    C2_no_click_below_threshold mHalf 10 10 [1] (0, 0) (4/5)
      (by norm_num) (by norm_num)
      (by norm_num [multi_scale_template_matching, mstmGo, mHalf])⟩

/-- Claim C7: when locate_and_click clicks, the click point is the matched
region's top-left corner plus the offsets int(width * offset.x) and
int(height * offset.y), truncated to integers by Python's int(). -/
theorem C7_click_point (m : ℚ → ℚ × ℤ × ℤ) (tw th : ℤ) (scales : List ℚ)
    (offset : ℚ × ℚ) (threshold : ℚ)
    (h : (locate_and_click m tw th scales offset threshold).1 = true) :
    ∃ reg, (multi_scale_template_matching m tw th scales).2 = some reg ∧
      threshold ≤ (multi_scale_template_matching m tw th scales).1 ∧
      (locate_and_click m tw th scales offset threshold).2 =
        [Event.moveTo (reg.x + pyInt (reg.w * offset.1))
          (reg.y + pyInt (reg.h * offset.2)), Event.click] :=
  locate_and_click_true_spec m tw th scales offset threshold h

/-- Witness for claim C7: the spec's concrete example: region
(100, 200, 50, 30) with offset (0.75, 0.5) gives click point (137, 215). -/
theorem C7_witness :
    ((locate_and_click mStage 50 30 [1] (3/4, 1/2) (4/5)).1 = true ∧
      (∃ reg, (multi_scale_template_matching mStage 50 30 [1]).2 = some reg ∧
        (4:ℚ)/5 ≤ (multi_scale_template_matching mStage 50 30 [1]).1 ∧
        (locate_and_click mStage 50 30 [1] (3/4, 1/2) (4/5)).2 =
          [Event.moveTo (reg.x + pyInt (reg.w * (3/4)))
            (reg.y + pyInt (reg.h * (1/2))), Event.click])) ∧
      (locate_and_click mStage 50 30 [1] (3/4, 1/2) (4/5)).2 =
        [Event.moveTo 137 215, Event.click] :=
  ⟨⟨by norm_num [locate_and_click, multi_scale_template_matching, mstmGo,
      resizeDims, cvRound, mStage],
    C7_click_point mStage 50 30 [1] (3/4, 1/2) (4/5)
      (by norm_num [locate_and_click, multi_scale_template_matching, mstmGo,
        resizeDims, cvRound, mStage])⟩,
    by norm_num [locate_and_click, multi_scale_template_matching, mstmGo,
      resizeDims, cvRound, pyInt, mStage]⟩

/-- Rounding a cast integer is the identity. -/
theorem cvRound_intCast (n : ℤ) : cvRound (n : ℚ) = n := by
  unfold cvRound
  rw [Int.floor_intCast]
  norm_num

/-- Resizing by factor 1.0 leaves the template size unchanged. -/
theorem resizeDims_one (tw th : ℤ) : resizeDims tw th 1 = (tw, th) := by
  simp [resizeDims, mul_one, cvRound_intCast]

/-- Claim C9, counterexample: at the matching outcome whose scale-1
correlation maximum is exactly -1, multi_scale_template_matching with
scales [1.0] returns no region while plain single-scale matching still
reports the best location, so the two differ. -/
theorem C9_counterexample :
    multi_scale_template_matching mNeg 3 4 [1] ≠
      plain_template_matching mNeg 3 4 := by
  have h : multi_scale_template_matching mNeg 3 4 [1] = (-1, none) := by
    norm_num [multi_scale_template_matching, mstmGo, mNeg]
  rw [h]
  simp [plain_template_matching, mNeg]

/-- Claim C9 (amended): whenever the scale-1 correlation maximum exceeds
-1, matching with scales = [1.0] returns exactly the plain single-scale
result: same confidence, same region, the region sized by the unresized
template. -/
theorem C9_single_scale (m : ℚ → ℚ × ℤ × ℤ) (tw th : ℤ)
    (h : -1 < (m 1).1) :
    multi_scale_template_matching m tw th [1] =
      plain_template_matching m tw th := by
  unfold multi_scale_template_matching plain_template_matching
  simp [mstmGo, h, resizeDims_one]

/-- Witness for the amended claim C9 at a concrete input. -/
theorem C9_witness :
    multi_scale_template_matching mHalf 3 4 [1] =
      plain_template_matching mHalf 3 4 :=
  C9_single_scale mHalf 3 4 (by norm_num [mHalf])

/-- Claim C10: with an empty scale list the matcher returns the sentinel
confidence -1 with no region, and locate_and_click therefore always
returns False with no pointer movement and no click, for every threshold
in [0, 1]. -/
theorem C10_empty_scales (m : ℚ → ℚ × ℤ × ℤ) (tw th : ℤ) (offset : ℚ × ℚ)
    (threshold : ℚ) (h0 : 0 ≤ threshold) (h1 : threshold ≤ 1) :
    multi_scale_template_matching m tw th [] = (-1, none) ∧
      locate_and_click m tw th [] offset threshold = (false, []) :=
  ⟨rfl, rfl⟩

/-- envLocateClick variant of locate_and_click_true_spec: a reported click
emits exactly a pointer move and a click. -/
theorem envLocateClick_true_events (env : Env) (k : ℕ) (t : Tmpl)
    (scales : List ℚ) (offset : ℚ × ℚ) (threshold : ℚ)
    (h : (envLocateClick env k t scales offset threshold).1 = true) :
    ∃ x y, (envLocateClick env k t scales offset threshold).2 =
      [Event.moveTo x y, Event.click] := by
  obtain ⟨reg, _, _, h2⟩ := locate_and_click_true_spec (env.oracle k t)
    (env.tdims t).1 (env.tdims t).2 scales offset threshold h
  exact ⟨_, _, h2⟩

/-- envLocateClick variant of locate_and_click_false_events. -/
theorem envLocateClick_false_events (env : Env) (k : ℕ) (t : Tmpl)
    (scales : List ℚ) (offset : ℚ × ℚ) (threshold : ℚ)
    (h : (envLocateClick env k t scales offset threshold).1 = false) :
    (envLocateClick env k t scales offset threshold).2 = [] :=
  locate_and_click_false_events (env.oracle k t) (env.tdims t).1
    (env.tdims t).2 scales offset threshold h

/-- If the retry loop returns False, every one of its fuel iterations
incremented retry_num: the attempt count equals the fuel. -/
theorem runClickLoop_false_attempts (env : Env) (t : Tmpl) (scales : List ℚ)
    (offset : ℚ × ℚ) (threshold δ : ℚ) :
    ∀ fuel cap stored,
      (runClickLoop env t scales offset threshold δ fuel cap stored).ok = false →
      (runClickLoop env t scales offset threshold δ fuel cap stored).attempts = fuel := by
  intro fuel
  induction fuel with
  | zero => intro cap stored _; rfl
  | succ n ih =>
    intro cap stored h
    simp only [runClickLoop] at h ⊢
    cases hl : (envLocateClick env stored t scales offset threshold).1 with
    | false =>
      simp only [hl] at h ⊢
      simp only [Bool.false_eq_true, if_false] at h ⊢
      rw [ih cap stored (by simpa using h)]
    | true =>
      simp only [hl, if_true] at h ⊢
      by_cases hc : (envMatch env cap t scales).2 = none ∨
          (envMatch env cap t scales).1 < threshold
      · simp [hc] at h
      · simp only [hc, if_false] at h ⊢
        rw [ih (cap + 1) cap (by simpa using h)]

/-- If the retry loop returns True, its trace ends with a pointer move, a
click, the post-click sleep and a fresh capture s, and the re-match of the
same template on s has no region or confidence strictly below the
threshold. -/
theorem runClickLoop_true_trace (env : Env) (t : Tmpl) (scales : List ℚ)
    (offset : ℚ × ℚ) (threshold δ : ℚ) :
    ∀ fuel cap stored,
      (runClickLoop env t scales offset threshold δ fuel cap stored).ok = true →
      ∃ pre x y s,
        (runClickLoop env t scales offset threshold δ fuel cap stored).trace =
          pre ++ [Event.moveTo x y, Event.click, Event.sleep δ, Event.save s] ∧
        ((envMatch env s t scales).2 = none ∨
          (envMatch env s t scales).1 < threshold) := by
  intro fuel
  induction fuel with
  | zero => intro cap stored h; simp [runClickLoop] at h
  | succ n ih =>
    intro cap stored h
    simp only [runClickLoop] at h ⊢
    cases hl : (envLocateClick env stored t scales offset threshold).1 with
    | false =>
      simp only [hl, Bool.false_eq_true, if_false] at h ⊢
      obtain ⟨pre, x, y, s, htr, hchk⟩ := ih cap stored (by simpa using h)
      refine ⟨Event.sleep δ :: pre, x, y, s, ?_, hchk⟩
      simp [envLocateClick_false_events env stored t scales offset threshold hl, htr]
    | true =>
      obtain ⟨x0, y0, hev⟩ :=
        envLocateClick_true_events env stored t scales offset threshold hl
      simp only [hl, if_true] at h ⊢
      by_cases hc : (envMatch env cap t scales).2 = none ∨
          (envMatch env cap t scales).1 < threshold
      · simp only [hc, if_true]
        exact ⟨[], x0, y0, cap, by simp [hev], hc⟩
      · simp only [hc, if_false] at h ⊢
        obtain ⟨pre, x, y, s, htr, hchk⟩ := ih (cap + 1) cap (by simpa using h)
        refine ⟨Event.moveTo x0 y0 :: Event.click ::
          Event.sleep δ :: Event.save cap :: pre, x, y, s, ?_, hchk⟩
        simp [hev, htr]

/-- Claim C1: run_click_task returns True only when, after a click that
locate_and_click reported successful (the move and click events), a fresh
capture s was taken and the re-match of the same template on s has no
region or confidence strictly below the threshold; and it returns False
exactly when all retry_times iterations incremented the attempt counter,
never fewer. -/
theorem C1_run_click_task (env : Env) (t : Tmpl) (scales : List ℚ)
    (offset : ℚ × ℚ) (threshold : ℚ) (retry : ℕ) (δ : ℚ) (cap0 : ℕ) :
    ((run_click_task env t scales offset threshold retry δ cap0).ok = true →
      ∃ pre x y s,
        (run_click_task env t scales offset threshold retry δ cap0).trace =
          pre ++ [Event.moveTo x y, Event.click, Event.sleep δ, Event.save s] ∧
        ((envMatch env s t scales).2 = none ∨
          (envMatch env s t scales).1 < threshold)) ∧
    ((run_click_task env t scales offset threshold retry δ cap0).ok = false →
      (run_click_task env t scales offset threshold retry δ cap0).attempts = retry) := by
  constructor
  · intro h
    obtain ⟨pre, x, y, s, htr, hchk⟩ :=
      runClickLoop_true_trace env t scales offset threshold δ retry (cap0 + 1)
        cap0 (by simpa [run_click_task] using h)
    exact ⟨Event.save cap0 :: pre, x, y, s, by simp [run_click_task, htr], hchk⟩
  · intro h
    simpa [run_click_task] using
      runClickLoop_false_attempts env t scales offset threshold δ retry
        (cap0 + 1) cap0 (by simpa [run_click_task] using h)

/-- Witness for claim C1: with every confidence at 1/10 and threshold 4/5
the task fails, and the attempt counter reads exactly retry_times = 3. -/
theorem C1_witness :
    (run_click_task envPoor Tmpl.stage105 [1] (0, 0) (4/5) 3 2 0).ok = false ∧
      (run_click_task envPoor Tmpl.stage105 [1] (0, 0) (4/5) 3 2 0).attempts = 3 := by
  have hok : (run_click_task envPoor Tmpl.stage105 [1] (0, 0) (4/5) 3 2 0).ok = false := by
    norm_num [run_click_task, runClickLoop, envLocateClick, locate_and_click,
      envMatch, multi_scale_template_matching, mstmGo, resizeDims, cvRound,
      envPoor]
  exact ⟨hok,
    (C1_run_click_task envPoor Tmpl.stage105 [1] (0, 0) (4/5) 3 2 0).2 hok⟩

/-- Splitting a cons along an append decomposition: the distinguished
element is either the head or sits in the tail. -/
theorem cons_eq_append_cases {α : Type} (a e : α) (l pre post : List α)
    (h : a :: l = pre ++ e :: post) :
    (pre = [] ∧ e = a ∧ post = l) ∨
    ∃ pre1, pre = a :: pre1 ∧ l = pre1 ++ e :: post := by
  cases pre with
  | nil =>
    simp only [List.nil_append, List.cons.injEq] at h
    exact Or.inl ⟨rfl, h.1.symm, h.2.symm⟩
  | cons b pre1 =>
    rw [List.cons_append] at h
    injection h with h1 h2
    exact Or.inr ⟨pre1, by rw [h1], h2⟩

/-- Every screenshot the retry loop takes comes immediately after a
successful click's pointer move, click and post-click sleep: failed
attempts never recapture. -/
theorem runClickLoop_saves_guarded (env : Env) (t : Tmpl) (scales : List ℚ)
    (offset : ℚ × ℚ) (threshold δ : ℚ) :
    ∀ fuel cap stored pre k post,
      (runClickLoop env t scales offset threshold δ fuel cap stored).trace =
        pre ++ Event.save k :: post →
      ∃ pre2 x y, pre = pre2 ++ [Event.moveTo x y, Event.click, Event.sleep δ] := by
  intro fuel
  induction fuel with
  | zero =>
    intro cap stored pre k post h
    simp only [runClickLoop] at h
    rcases pre with _ | ⟨e, pre⟩ <;> simp at h
  | succ n ih =>
    intro cap stored pre k post h
    simp only [runClickLoop] at h
    cases hl : (envLocateClick env stored t scales offset threshold).1 with
    | false =>
      rw [envLocateClick_false_events env stored t scales offset threshold hl] at h
      simp only [hl, Bool.false_eq_true, if_false, List.nil_append] at h
      rcases cons_eq_append_cases _ _ _ _ _ h with ⟨_, he, _⟩ | ⟨pre1, hp, hrest⟩
      · exact absurd he (by simp)
      · obtain ⟨pre2, x, y, h2⟩ := ih cap stored pre1 k post hrest
        exact ⟨Event.sleep δ :: pre2, x, y, by rw [hp, h2]; rfl⟩
    | true =>
      obtain ⟨x0, y0, hev⟩ :=
        envLocateClick_true_events env stored t scales offset threshold hl
      rw [hev] at h
      simp only [hl, if_true] at h
      by_cases hc : (envMatch env cap t scales).2 = none ∨
          (envMatch env cap t scales).1 < threshold
      · simp only [hc, if_true, List.cons_append, List.nil_append] at h
        rcases cons_eq_append_cases _ _ _ _ _ h with ⟨_, he, _⟩ | ⟨p1, hp1, h1⟩
        · exact absurd he (by simp)
        rcases cons_eq_append_cases _ _ _ _ _ h1 with ⟨_, he, _⟩ | ⟨p2, hp2, h2⟩
        · exact absurd he (by simp)
        rcases cons_eq_append_cases _ _ _ _ _ h2 with ⟨_, he, _⟩ | ⟨p3, hp3, h3⟩
        · exact absurd he (by simp)
        rcases cons_eq_append_cases _ _ _ _ _ h3 with ⟨hp4, _, _⟩ | ⟨p4, hp4, h4⟩
        · refine ⟨[], x0, y0, ?_⟩
          rw [hp1, hp2, hp3, hp4]
          rfl
        · rcases p4 with _ | ⟨e, p4⟩ <;> simp at h4
      · simp only [hc, if_false, List.cons_append, List.nil_append,
          List.append_assoc] at h
        rcases cons_eq_append_cases _ _ _ _ _ h with ⟨_, he, _⟩ | ⟨p1, hp1, h1⟩
        · exact absurd he (by simp)
        rcases cons_eq_append_cases _ _ _ _ _ h1 with ⟨_, he, _⟩ | ⟨p2, hp2, h2⟩
        · exact absurd he (by simp)
        rcases cons_eq_append_cases _ _ _ _ _ h2 with ⟨_, he, _⟩ | ⟨p3, hp3, h3⟩
        · exact absurd he (by simp)
        rcases cons_eq_append_cases _ _ _ _ _ h3 with ⟨hp4, _, _⟩ | ⟨p4, hp4, h4⟩
        · refine ⟨[], x0, y0, ?_⟩
          rw [hp1, hp2, hp3, hp4]
          rfl
        · obtain ⟨pre2, x, y, h5⟩ := ih (cap + 1) cap p4 k post h4
          refine ⟨Event.moveTo x0 y0 :: Event.click :: Event.sleep δ ::
            Event.save cap :: pre2, x, y, ?_⟩
          rw [hp1, hp2, hp3, hp4, h5]
          rfl

/-- Claim C8: in run_click_task's trace, every screenshot other than the
initial one is taken immediately after a successful click's pointer move,
click and sleep; hence between a failed click attempt and the next attempt
the stored capture at image_path is never recaptured or overwritten. -/
theorem C8_no_recapture_on_failure (env : Env) (t : Tmpl) (scales : List ℚ)
    (offset : ℚ × ℚ) (threshold : ℚ) (retry : ℕ) (δ : ℚ) (cap0 : ℕ) :
    ∀ pre k post,
      (run_click_task env t scales offset threshold retry δ cap0).trace =
        pre ++ Event.save k :: post →
      pre = [] ∨
        ∃ pre2 x y, pre = pre2 ++ [Event.moveTo x y, Event.click, Event.sleep δ] := by
  intro pre k post h
  have h' : Event.save cap0 ::
      (runClickLoop env t scales offset threshold δ retry (cap0 + 1) cap0).trace =
      pre ++ Event.save k :: post := by
    simpa [run_click_task] using h
  rcases cons_eq_append_cases _ _ _ _ _ h' with ⟨hp, _, _⟩ | ⟨pre1, hp, hrest⟩
  · exact Or.inl hp
  · obtain ⟨pre2, x, y, h2⟩ :=
      runClickLoop_saves_guarded env t scales offset threshold δ retry
        (cap0 + 1) cap0 pre1 k post hrest
    exact Or.inr ⟨Event.save cap0 :: pre2, x, y, by rw [hp, h2]; rfl⟩

/-- Witness for claim C8: in a concrete successful run the only non-initial
capture in the trace is immediately preceded by the move, the click and the
sleep. -/
theorem C8_witness :
    [Event.save 0, Event.moveTo 137 215, Event.click, Event.sleep 2] = [] ∨
      ∃ pre2 x y,
        [Event.save 0, Event.moveTo 137 215, Event.click, Event.sleep 2] =
          pre2 ++ [Event.moveTo x y, Event.click, Event.sleep 2] :=
  C8_no_recapture_on_failure envStage Tmpl.stage105 [1] (3/4, 1/2) (4/5) 3 2 0
    [Event.save 0, Event.moveTo 137 215, Event.click, Event.sleep 2] 1 []
    (by norm_num [run_click_task, runClickLoop, envLocateClick,
      locate_and_click, envMatch, multi_scale_template_matching, mstmGo,
      resizeDims, cvRound, pyInt, envStage])

/-- The polling-loop trace contains no click event. -/
theorem pollTrace_no_click (cap N : ℕ) : Event.click ∉ pollTrace cap N := by
  induction N generalizing cap with
  | zero => simp [pollTrace]
  | succ n ih => simp [pollTrace, ih]

/-- If the success template never reaches the threshold on any capture, the
polling loop runs to its wall-clock deadline: it reports failure, and its
trace is exactly one sleep-10-then-recapture pair per iteration. -/
theorem battlePoll_timeout (env : Env) (threshold : ℚ) (scales : List ℚ)
    (maxB : ℚ)
    (h4 : ∀ k, (envMatch env k Tmpl.success scales).1 < threshold) :
    ∀ μ t cap stored, (Int.ceil (maxB - t)).toNat ≤ μ →
      ∃ N st, battlePoll env threshold scales maxB t cap stored =
        ⟨false, cap + N, st, pollTrace cap N⟩ := by
  intro μ
  induction μ with
  | zero =>
    intro t cap stored h
    have hnot : ¬ t < maxB := by
      intro hlt
      have := Int.ceil_pos.mpr (sub_pos.mpr hlt)
      omega
    rw [battlePoll, dif_neg hnot]
    exact ⟨0, stored, by simp [pollTrace]⟩
  | succ μ ih =>
    intro t cap stored h
    by_cases hlt : t < maxB
    · rw [battlePoll, dif_pos hlt]
      have hm : (Int.ceil (maxB - (t + 10))).toNat ≤ μ := by
        have hpos : (0:ℤ) < Int.ceil (maxB - t) := Int.ceil_pos.mpr (by linarith)
        have h2 : maxB - (t + 10) = (maxB - t) - ((10:ℤ):ℚ) := by push_cast; ring
        have h3 : Int.ceil (maxB - (t + 10)) = Int.ceil (maxB - t) - 10 := by
          rw [h2, Int.ceil_sub_int]
        omega
      obtain ⟨N, st, hN⟩ := ih (t + 10) (cap + 1) cap hm
      refine ⟨N + 1, st, ?_⟩
      rw [if_neg (not_le.mpr (h4 cap)), hN]
      have hcap : cap + 1 + N = cap + (N + 1) := by omega
      simp [pollTrace, hcap]
    · rw [battlePoll, dif_neg hlt]
      exact ⟨0, stored, by simp [pollTrace]⟩

/-- Claim C3: if stage selection and team selection both succeed and the
stamina-exhausted template then matches the stored capture at or above the
threshold, the scenario stops right there: outcome noStamina, and the trace
ends with the pointer-parking move, with no battle polling and no dismiss
or return click task after it. -/
theorem C3_stamina_stops (env : Env) (threshold : ℚ) (scales : List ℚ)
    (retry : ℕ) (maxB : ℚ) (fuel cap : ℕ)
    (h1 : (step1 env threshold scales retry cap).ok = true)
    (h2 : (step2 env threshold scales retry
      (step1 env threshold scales retry cap).nextCap).ok = true)
    (h3 : threshold ≤ (envMatch env
      (step2 env threshold scales retry
        (step1 env threshold scales retry cap).nextCap).stored
      Tmpl.buystamina scales).1) :
    run_zhulu_105_task env threshold scales retry maxB (fuel + 1) cap =
      (Outcome.noStamina,
        (step1 env threshold scales retry cap).trace ++
        ((step2 env threshold scales retry
          (step1 env threshold scales retry cap).nextCap).trace ++
        [Event.moveTo 4 4])) := by
  have hb : zhuluBody env threshold scales retry maxB cap =
      ⟨Outcome.noStamina,
        (step2 env threshold scales retry
          (step1 env threshold scales retry cap).nextCap).nextCap,
        (step2 env threshold scales retry
          (step1 env threshold scales retry cap).nextCap).stored,
        (step1 env threshold scales retry cap).trace ++
        ((step2 env threshold scales retry
          (step1 env threshold scales retry cap).nextCap).trace ++
        [Event.moveTo 4 4])⟩ := by
    unfold zhuluBody
    simp [h1, h2, h3]
  simp only [run_zhulu_105_task, hb]
  simp

/-- Witness for claim C3 at a concrete environment. -/
theorem C3_witness :
    run_zhulu_105_task envStamina (4/5) [1] 3 120 1 0 =
      (Outcome.noStamina,
        (step1 envStamina (4/5) [1] 3 0).trace ++
        ((step2 envStamina (4/5) [1] 3
          (step1 envStamina (4/5) [1] 3 0).nextCap).trace ++
        [Event.moveTo 4 4])) :=
  C3_stamina_stops envStamina (4/5) [1] 3 120 0 0
    (by norm_num [step1, run_click_task, runClickLoop, envLocateClick,
      locate_and_click, envMatch, multi_scale_template_matching, mstmGo,
      resizeDims, cvRound, pyInt, envStamina])
    (by norm_num [step1, step2, run_click_task, runClickLoop, envLocateClick,
      locate_and_click, envMatch, multi_scale_template_matching, mstmGo,
      resizeDims, cvRound, pyInt, envStamina])
    (by norm_num [step1, step2, run_click_task, runClickLoop, envLocateClick,
      locate_and_click, envMatch, multi_scale_template_matching, mstmGo,
      resizeDims, cvRound, pyInt, envStamina])

/-- Claim C4: if stage and team selection succeed, stamina is not
exhausted, and the success template never reaches the threshold on any
capture, then the battle poll recaptures after each 10-second sleep until
the wall-clock deadline and the scenario stops as a timeout failure: the
trace ends with the polling sleeps and captures, which contain no click,
so no dismiss or return click task runs afterwards. -/
theorem C4_battle_timeout (env : Env) (threshold : ℚ) (scales : List ℚ)
    (retry : ℕ) (maxB : ℚ) (fuel cap : ℕ)
    (h1 : (step1 env threshold scales retry cap).ok = true)
    (h2 : (step2 env threshold scales retry
      (step1 env threshold scales retry cap).nextCap).ok = true)
    (h3 : (envMatch env
      (step2 env threshold scales retry
        (step1 env threshold scales retry cap).nextCap).stored
      Tmpl.buystamina scales).1 < threshold)
    (h4 : ∀ k, (envMatch env k Tmpl.success scales).1 < threshold) :
    ∃ N,
      run_zhulu_105_task env threshold scales retry maxB (fuel + 1) cap =
        (Outcome.battleTimeout,
          (step1 env threshold scales retry cap).trace ++
          ((step2 env threshold scales retry
            (step1 env threshold scales retry cap).nextCap).trace ++
          (Event.moveTo 4 4 ::
            pollTrace (step2 env threshold scales retry
              (step1 env threshold scales retry cap).nextCap).nextCap N))) ∧
      Event.click ∉ pollTrace (step2 env threshold scales retry
        (step1 env threshold scales retry cap).nextCap).nextCap N := by
  obtain ⟨N, st, hbp⟩ := battlePoll_timeout env threshold scales maxB h4
    (Int.ceil maxB).toNat 0
    (step2 env threshold scales retry
      (step1 env threshold scales retry cap).nextCap).nextCap
    (step2 env threshold scales retry
      (step1 env threshold scales retry cap).nextCap).stored
    (by rw [sub_zero])
  refine ⟨N, ?_, pollTrace_no_click _ _⟩
  have hb : zhuluBody env threshold scales retry maxB cap =
      ⟨Outcome.battleTimeout,
        (step2 env threshold scales retry
          (step1 env threshold scales retry cap).nextCap).nextCap + N,
        st,
        (step1 env threshold scales retry cap).trace ++
        ((step2 env threshold scales retry
          (step1 env threshold scales retry cap).nextCap).trace ++
        (Event.moveTo 4 4 ::
          pollTrace (step2 env threshold scales retry
            (step1 env threshold scales retry cap).nextCap).nextCap N))⟩ := by
    unfold zhuluBody
    simp [h1, h2, not_le.mpr h3, hbp]
  simp only [run_zhulu_105_task, hb]
  simp

/-- Witness for claim C4 at a concrete environment with a 20-second battle
deadline. -/
theorem C4_witness :
    ∃ N,
      run_zhulu_105_task envBattle (4/5) [1] 3 20 1 0 =
        (Outcome.battleTimeout,
          (step1 envBattle (4/5) [1] 3 0).trace ++
          ((step2 envBattle (4/5) [1] 3
            (step1 envBattle (4/5) [1] 3 0).nextCap).trace ++
          (Event.moveTo 4 4 ::
            pollTrace (step2 envBattle (4/5) [1] 3
              (step1 envBattle (4/5) [1] 3 0).nextCap).nextCap N))) ∧
      Event.click ∉ pollTrace (step2 envBattle (4/5) [1] 3
        (step1 envBattle (4/5) [1] 3 0).nextCap).nextCap N :=
  C4_battle_timeout envBattle (4/5) [1] 3 20 0 0
    (by norm_num [step1, run_click_task, runClickLoop, envLocateClick,
      locate_and_click, envMatch, multi_scale_template_matching, mstmGo,
      resizeDims, cvRound, pyInt, envBattle])
    (by norm_num [step1, step2, run_click_task, runClickLoop, envLocateClick,
      locate_and_click, envMatch, multi_scale_template_matching, mstmGo,
      resizeDims, cvRound, pyInt, envBattle])
    (by norm_num [step1, step2, run_click_task, runClickLoop, envLocateClick,
      locate_and_click, envMatch, multi_scale_template_matching, mstmGo,
      resizeDims, cvRound, pyInt, envBattle])
    (fun k => by
      norm_num [envMatch, multi_scale_template_matching, mstmGo,
        resizeDims, cvRound, envBattle])

/-- Witness for claim C10 at a concrete input. -/
theorem C10_witness :
    ((0:ℚ) ≤ 1/2 ∧ (1:ℚ)/2 ≤ 1) ∧
      (multi_scale_template_matching mHalf 3 4 [] = (-1, none) ∧
        locate_and_click mHalf 3 4 [] (0, 0) (1/2) = (false, [])) :=
  ⟨⟨by norm_num, by norm_num⟩,
    C10_empty_scales mHalf 3 4 (0, 0) (1/2) (by norm_num) (by norm_num)⟩
